import Mathlib

/-!
Shallow embedding of the MySQL MCP server core (`src/mysql_mcp/server.py` and
the identifier-safety helpers exported by `src/mysql_mcp/__init__.py`).

Database interaction is modelled by passing the outcome of each database call
as an explicit parameter: a call either raises a driver `Error`
(`mysql.connector.Error`), raises some other exception, or succeeds with the
data the cursor would report.  Python strings are modelled as Lean `String`s,
and stringified result cells (`str(x)` in the source) arrive pre-stringified.
-/

namespace MysqlMcp

/-- Model of Python's `sep.join(parts)`. -/
def pyJoin (sep : String) : List String → String
  | [] => ""
  | [s] => s
  | s :: t :: rest => s ++ sep ++ pyJoin sep (t :: rest)

/-- Truthiness of an optional string in Python: `None` and `""` are falsy. -/
def optTruthy : Option String → Bool
  | none => false
  | some s => !(s == "")

/-- The environment variables read by `get_db_config` (each `none` when unset). -/
structure Env where
  mysql_host : Option String
  mysql_port : Option String
  mysql_user : Option String
  mysql_password : Option String
  mysql_database : Option String
  mysql_charset : Option String
  mysql_collation : Option String
  mysql_sql_mode : Option String
  mysql_cert : Option String

/-- The configuration dictionary built by `get_db_config` (required fields kept
as options to mirror the dict before the `all(...)` check; `None` values are
dropped from the dict, which the options model directly). -/
structure DbConfig where
  host : String
  port : Int
  user : Option String
  password : Option String
  database : Option String
  charset : String
  collation : String
  autocommit : Bool
  sql_mode : String
  ssl_ca : Option String

/-- Message of the `ValueError` raised by `get_db_config` when a required
variable is missing. -/
def missingConfigMsg : String :=
  "Missing required database configuration. " ++
  "Please set MYSQL_USER, MYSQL_PASSWORD, and MYSQL_DATABASE " ++
  "environment variables."

/-- `get_db_config` (server.py lines 10-39).  `Except.error` models a raised
`ValueError`: either from `int(os.getenv("MYSQL_PORT", "3306"))` on a
non-numeric port, or from the required-field check. -/
def get_db_config (env : Env) : Except String DbConfig :=
  match (env.mysql_port.getD "3306").toInt? with
  | none => .error ("invalid literal for int() with base 10: " ++ env.mysql_port.getD "3306")
  | some port =>
    let config : DbConfig :=
      { host := env.mysql_host.getD "localhost"
        port := port
        user := env.mysql_user
        password := env.mysql_password
        database := env.mysql_database
        charset := env.mysql_charset.getD "utf8mb4"
        collation := env.mysql_collation.getD "utf8mb4_unicode_ci"
        autocommit := true
        sql_mode := env.mysql_sql_mode.getD "TRADITIONAL"
        ssl_ca := env.mysql_cert }
    if optTruthy config.user && optTruthy config.password && optTruthy config.database then
      .ok config
    else
      .error missingConfigMsg

/-- Outcome of the database interaction performed inside `execute_sql`'s `try`
block: the driver raises an `Error`, some other exception is raised, or
`cursor.execute` succeeds, leaving `cursor.description` (column names, `none`
when absent), the fetched rows (stringified cells) and `cursor.rowcount`. -/
inductive ExecOutcome where
  | raisesDb (msg : String)
  | raisesOther (msg : String)
  | succeeds (description : Option (List String)) (rows : List (List String)) (rowcount : Int)

/-- Body of `execute_sql` (server.py lines 83-113): the `try` block and its two
`except` clauses.  Returns the result text together with the number of
`conn.commit()` calls performed. -/
def execute_sql_body (query : String) (db : ExecOutcome) : String × Nat :=
  match db with
  | .raisesDb m => ("MySQL error: " ++ m, 0)
  | .raisesOther m => ("Unexpected error: " ++ m, 0)
  | .succeeds description rows rowcount =>
    match description with
    | some (c :: cs) =>
      if rows.isEmpty then
        ("Query executed successfully. No results returned.", 0)
      else
        (pyJoin "\n" (pyJoin "," (c :: cs) :: rows.map (pyJoin ",")), 0)
    | _ =>
      ("Query executed successfully. " ++ toString rowcount ++ " rows affected.", 1)

/-- `execute_sql` (server.py lines 71-113): `get_db_config()` runs before the
`try` block, so a `ValueError` it raises propagates (`Except.error`). -/
def execute_sql (env : Env) (query : String) (db : ExecOutcome) :
    Except String (String × Nat) :=
  match get_db_config env with
  | .error e => .error e
  | .ok _ => .ok (execute_sql_body query db)

/-- Outcome of the database interaction inside `list_tables`'s `try` block. -/
inductive ListOutcome where
  | raisesDb (msg : String)
  | raisesOther (msg : String)
  | fetched (tables : List (List String))

/-- Body of `list_tables` (server.py lines 121-141). -/
def list_tables_body (db : ListOutcome) : String :=
  match db with
  | .raisesDb m => "MySQL error: " ++ m
  | .raisesOther m => "Unexpected error: " ++ m
  | .fetched tables =>
    if tables.isEmpty then
      "No tables found in the database."
    else
      let table_list := tables.filterMap fun t =>
        match t with
        | [] => none
        | x :: _ => some ("- " ++ x)
      "Available tables:\n" ++ pyJoin "\n" table_list

/-- `list_tables` (server.py lines 116-141): config resolution precedes the
`try` block. -/
def list_tables (env : Env) (db : ListOutcome) : Except String String :=
  match get_db_config env with
  | .error e => .error e
  | .ok _ => .ok (list_tables_body db)

/-- One row of the `DESCRIBE` result, destructured in the source as
`field, type_, null, key, default, extra = col` (cells stringified where the
source applies `!s`; `default` is `none` exactly when the cell is `None`). -/
structure Column where
  field : String
  type_ : String
  null : String
  key : String
  default : Option String
  extra : String

/-- `null_str = "NULL" if null == "YES" else "NOT NULL"` (server.py line 172). -/
def null_str (null : String) : String :=
  if null == "YES" then "NULL" else "NOT NULL"

/-- `key_str = f" ({key!s})" if key else ""` (server.py line 173). -/
def key_str (key : String) : String :=
  if key == "" then "" else " (" ++ key ++ ")"

/-- `default_str = f" DEFAULT {default!s}" if default is not None else ""`
(server.py line 174). -/
def default_str : Option String → String
  | none => ""
  | some d => " DEFAULT " ++ d

/-- `extra_str = f" {extra!s}" if extra else ""` (server.py line 175). -/
def extra_str (extra : String) : String :=
  if extra == "" then "" else " " ++ extra

/-- The line appended for one column (server.py lines 177-178). -/
def colLine (col : Column) : String :=
  "  - " ++ col.field ++ ": " ++ col.type_ ++ " " ++
    (null_str col.null ++ key_str col.key ++ default_str col.default ++ extra_str col.extra)

/-- `"=" * 50` (server.py line 167). -/
def sepLine : String := String.mk (List.replicate 50 '=')

/-- The list of report lines built by `describe_table` on success
(server.py lines 167-184), joined with newlines at line 186. -/
def describe_render (table : String) (columns : List Column) (row_count : String) :
    List String :=
  ["Table: " ++ table, sepLine, ""] ++ ["Columns:"] ++
    columns.map colLine ++ ["", "Total rows: " ++ row_count]

/-- Outcome of the `DESCRIBE` query inside `describe_table`. -/
inductive DescOutcome where
  | raisesDb (msg : String)
  | raisesOther (msg : String)
  | ok (columns : List Column)

/-- Outcome of the `SELECT COUNT(*)` query: raised exception, or the value of
`cursor.fetchone()` (`none` for no row, otherwise the stringified cells). -/
inductive CntOutcome where
  | raisesDb (msg : String)
  | raisesOther (msg : String)
  | ok (count_result : Option (List String))

/-- Body of `describe_table` (server.py lines 156-191): the `try` block and its
`except` clauses.  Returns the result text together with the list of SQL
statements sent to the database, in order.  Note the source interpolates the
raw `table` argument into both statements with no validation of any kind. -/
def describe_table_body (table : String) (dsc : DescOutcome) (cnt : CntOutcome) :
    String × List String :=
  let descStmt := "DESCRIBE `" ++ table ++ "`"
  match dsc with
  | .raisesDb m => ("MySQL error: " ++ m, [descStmt])
  | .raisesOther m => ("Unexpected error: " ++ m, [descStmt])
  | .ok columns =>
    if columns.isEmpty then
      ("Table '" ++ table ++ "' not found or has no columns.", [descStmt])
    else
      let cntStmt := "SELECT COUNT(*) FROM `" ++ table ++ "`"
      match cnt with
      | .raisesDb m => ("MySQL error: " ++ m, [descStmt, cntStmt])
      | .raisesOther m => ("Unexpected error: " ++ m, [descStmt, cntStmt])
      | .ok count_result =>
        let row_count : String :=
          match count_result with
          | some (c :: _) => c
          | _ => "0"
        (pyJoin "\n" (describe_render table columns row_count), [descStmt, cntStmt])

/-- `describe_table` (server.py lines 144-191): config resolution precedes the
`try` block. -/
def describe_table (env : Env) (table : String) (dsc : DescOutcome) (cnt : CntOutcome) :
    Except String (String × List String) :=
  match get_db_config env with
  | .error e => .error e
  | .ok _ => .ok (describe_table_body table dsc cnt)

/-- Whether a character may start an identifier: the class `[A-Za-z_$]`. -/
def isIdentStart (c : Char) : Bool :=
  ('A' ≤ c && c ≤ 'Z') || ('a' ≤ c && c ≤ 'z') || c == '_' || c == '$'

/-- Whether a character may appear in an identifier: the class `[A-Za-z0-9_$]`. -/
def isIdentChar (c : Char) : Bool :=
  isIdentStart c || c.isDigit

/-- Modelled from the spec: `validate_table_name` is exported by
`__init__.py` and exercised by the test suite but its definition is not in
the sources.  Per the spec it is a pure lexical check: false for the empty
string, for length over 64, for a leading digit, and for any character
outside `[A-Za-z0-9_$]`; true exactly for strings of length 1-64 matching
`[A-Za-z_$][A-Za-z0-9_$]*`. -/
def validate_table_name (name : String) : Bool :=
  name.length ≤ 64 &&
    (match name.data with
     | [] => false
     | c :: rest => isIdentStart c && rest.all isIdentChar)

/-- Outcome of the parameterized existence check inside `table_exists`:
either a raised database error, or the value of `cursor.fetchone()` after
`cursor.execute("SHOW TABLES LIKE %s", (name,))`. -/
inductive LookupOutcome where
  | raises (msg : String)
  | fetched (row : Option (List String))

/-- Modelled from the spec: the unguarded existence check of `table_exists`
(its definition is not in the sources; `__init__.py` exports it and the test
suite exercises it).  Runs the parameterized `SHOW TABLES LIKE %s` query and
reports whether a row came back; a raised error is modelled as `Except.error`. -/
def table_exists_query (name : String) (db : LookupOutcome) : Except String Bool :=
  match db with
  | .raises m => .error m
  | .fetched row => .ok row.isSome

/-- Modelled from the spec: `table_exists(name, config)` wraps the check in a
catch-all that turns every database error into `false` (fail-closed), so the
caller always receives a boolean. -/
def table_exists (name : String) (config : DbConfig) (db : LookupOutcome) : Bool :=
  match table_exists_query name db with
  | .error _ => false
  | .ok b => b

/-! ### Helper lemmas -/

/-- Whether a string is free of newline characters (a single rendered line). -/
def noNL (s : String) : Bool := s.data.all (fun c => !(c == '\n'))

theorem data_append (a b : String) : (a ++ b).data = a.data ++ b.data := rfl

theorem noNL_append {a b : String} (ha : noNL a = true) (hb : noNL b = true) :
    noNL (a ++ b) = true := by
  unfold noNL at *
  rw [data_append, List.all_append, ha, hb]
  rfl

theorem noNL_pyJoin_comma {l : List String} (h : ∀ s ∈ l, noNL s = true) :
    noNL (pyJoin "," l) = true := by
  induction l with
  | nil => rfl
  | cons s rest ih =>
    match rest with
    | [] => exact h s (by simp)
    | t :: rs =>
      have hs : noNL s = true := h s (by simp)
      have hsep : noNL "," = true := by decide
      have hrest : noNL (pyJoin "," (t :: rs)) = true := by
        refine ih ?_
        intro x hx
        exact h x (List.mem_cons_of_mem _ hx)
      exact noNL_append (noNL_append hs hsep) hrest

/-- A digit cannot start an identifier. -/
theorem isDigit_not_isIdentStart {c : Char} (h : c.isDigit = true) :
    isIdentStart c = false := by
  unfold Char.isDigit at h
  rw [Bool.and_eq_true] at h
  have h0 : '0' ≤ c := of_decide_eq_true h.1
  have h9 : c ≤ '9' := of_decide_eq_true h.2
  have hA : ¬ ('A' ≤ c) := fun hA => absurd (Char.le_trans hA h9) (by decide)
  have ha : ¬ ('a' ≤ c) := fun ha => absurd (Char.le_trans ha h9) (by decide)
  have hu : c ≠ '_' := by intro he; subst he; exact absurd h9 (by decide)
  have hd : c ≠ '$' := by intro he; subst he; exact absurd h0 (by decide)
  simp [isIdentStart, hA, ha, hu, hd]

theorem string_length_eq_data_length (s : String) : s.length = s.data.length := rfl

/-- When a required variable is missing, `get_db_config` raises. -/
theorem get_db_config_error_of_missing {env : Env}
    (h : optTruthy env.mysql_user = false ∨ optTruthy env.mysql_password = false ∨
         optTruthy env.mysql_database = false) :
    ∃ e, get_db_config env = .error e := by
  unfold get_db_config
  cases hp : (env.mysql_port.getD "3306").toInt? with
  | none => exact ⟨_, rfl⟩
  | some p =>
    have hfail : (optTruthy env.mysql_user && optTruthy env.mysql_password &&
        optTruthy env.mysql_database) = false := by
      rcases h with h | h | h <;> simp [h]
    simp only [hfail, Bool.false_eq_true, if_false]
    exact ⟨_, rfl⟩

/-! ### The claims -/

/-- Claim C1: the claim states that `describe` on a lexically invalid name
terminates at the validation step without sending any statement to the
database and returns an "Invalid table name" rejection echoing the input.
The source's `describe_table` performs no validation at all: it interpolates
the raw argument into a `DESCRIBE` statement and sends it.  This theorem
evaluates the code at the test suite's own injection input and shows that a
statement carrying the payload is sent to the database and that the output is
a driver-error rendering, not a validation rejection. -/
theorem claim_C1_no_validation_step :
    describe_table_body "invalid;DROP TABLE users;--"
        (.raisesDb "syntax error") (.ok none) =
      ("MySQL error: syntax error",
       ["DESCRIBE `invalid;DROP TABLE users;--`"]) := rfl

/-- Claim C2: `validate_table_name` returns false exactly for the empty
string, over-64-length strings, strings starting with a digit, and strings
containing a character outside `[A-Za-z0-9_$]`; and returns true for every
string of length 1 to 64 matching `[A-Za-z_$][A-Za-z0-9_$]*`. -/
theorem claim_C2_validate_spec (s : String) :
    (validate_table_name s = false ↔
      s.data = [] ∨ 64 < s.length ∨
      (∃ c rest, s.data = c :: rest ∧ c.isDigit = true) ∨
      (∃ c ∈ s.data, isIdentChar c = false)) ∧
    (∀ c rest, s.data = c :: rest → s.length ≤ 64 →
      isIdentStart c = true → (∀ x ∈ rest, isIdentChar x = true) →
      validate_table_name s = true) := by
  rcases s with ⟨data⟩
  simp only [validate_table_name, string_length_eq_data_length]
  cases data with
  | nil => simp
  | cons c rest =>
    constructor
    · constructor
      · intro hfalse
        rw [Bool.and_eq_false_iff] at hfalse
        rcases hfalse with hlen | hrest
        · right; left
          have := of_decide_eq_false hlen
          omega
        · rw [Bool.and_eq_false_iff] at hrest
          rcases hrest with hstart | hall
          · by_cases hdig : c.isDigit = true
            · right; right; left; exact ⟨c, rest, rfl, hdig⟩
            · right; right; right
              refine ⟨c, by simp, ?_⟩
              rw [isIdentChar, hstart, Bool.false_or]
              exact Bool.not_eq_true _ ▸ hdig
          · rw [List.all_eq_false] at hall
            obtain ⟨x, hx, hpx⟩ := hall
            right; right; right
            exact ⟨x, List.mem_cons_of_mem _ hx, Bool.not_eq_true _ ▸ hpx⟩
      · intro hrhs
        rcases hrhs with hnil | hlen | ⟨c', rest', heq, hdig⟩ | ⟨x, hx, hbad⟩
        · exact absurd hnil (by simp)
        · have hd : decide ((c :: rest).length ≤ 64) = false := decide_eq_false (by omega)
          rw [hd, Bool.false_and]
        · injection heq with h1 h2
          subst h1
          have hstart := isDigit_not_isIdentStart hdig
          simp [hstart]
        · rcases List.mem_cons.mp hx with h | h
          · subst h
            have hstart : isIdentStart x = false := by
              have := hbad
              rw [isIdentChar, Bool.or_eq_false_iff] at this
              exact this.1
            simp [hstart]
          · have hall : rest.all isIdentChar = false := by
              rw [List.all_eq_false]
              exact ⟨x, h, by simp [hbad]⟩
            simp [hall]
    · intro c' rest' heq hlen hstart hall
      injection heq with h1 h2
      subst h1
      subst h2
      have hd : decide ((c :: rest).length ≤ 64) = true := decide_eq_true hlen
      rw [hd]
      show (true && (isIdentStart c && rest.all isIdentChar)) = true
      rw [hstart, Bool.true_and, Bool.true_and]
      exact List.all_eq_true.mpr hall

/-- Claim C2 witness: a lexically valid name is accepted and a digit-leading
name is rejected, via the two halves of `claim_C2_validate_spec`. -/
theorem claim_C2_validate_spec_witness :
    validate_table_name "users" = true ∧ validate_table_name "123table" = false := by
  constructor
  · exact (claim_C2_validate_spec "users").2 'u' ['s', 'e', 'r', 's'] rfl
      (by decide) (by decide) (by decide)
  · exact (claim_C2_validate_spec "123table").1.mpr
      (Or.inr (Or.inr (Or.inl ⟨'1', ['2', '3', 't', 'a', 'b', 'l', 'e'], rfl, by decide⟩)))

/-- Claim C3: for every name and config, `table_exists` returns false when the
database check raises, and never propagates the raise: the raising inner query
is `Except.error`, and the wrapper converts it to the plain boolean `false`. -/
theorem claim_C3_exists_fail_closed (name : String) (config : DbConfig) (m : String) :
    table_exists_query name (.raises m) = .error m ∧
    table_exists name config (.raises m) = false :=
  ⟨rfl, rfl⟩

/-- Claim C4: for every query, the executor body always returns a string
(its result type is a plain pair, never an exception): a driver failure
renders as the one-line `MySQL error: `-prefixed message carrying the
underlying error text, and any other exception renders as the one-line
`Unexpected error: `-prefixed message. -/
theorem claim_C4_executor_never_raises (query m : String) :
    execute_sql_body query (.raisesDb m) = ("MySQL error: " ++ m, 0) ∧
    execute_sql_body query (.raisesOther m) = ("Unexpected error: " ++ m, 0) :=
  ⟨rfl, rfl⟩

/-- Claim C6: for every non-row-returning statement (`cursor.description`
absent), the executor body commits exactly once and renders the sentence
embedding the driver-reported row count; with rowcount 1 the output is
exactly `Query executed successfully. 1 rows affected.`. -/
theorem claim_C6_affected_count (query : String) (rows : List (List String)) (n : Int) :
    execute_sql_body query (.succeeds none rows n) =
      ("Query executed successfully. " ++ toString n ++ " rows affected.", 1) ∧
    execute_sql_body query (.succeeds none rows 1) =
      ("Query executed successfully. 1 rows affected.", 1) :=
  ⟨rfl, rfl⟩

/-- Claim C7: for every row-returning statement with a column description but
zero rows, the executor body returns the fixed no-results sentence (and does
not commit). -/
theorem claim_C7_zero_rows (query c0 : String) (cols : List String) (n : Int) :
    execute_sql_body query (.succeeds (some (c0 :: cols)) [] n) =
      ("Query executed successfully. No results returned.", 0) := rfl

/-- Claim C8: the claim states that `describe` on a lexically valid but
absent table returns the fixed not-found sentence and performs neither the
structure query nor the count query.  The source has no existence guard: it
sends the `DESCRIBE` structure query unconditionally, and only after it comes
back empty returns a differently-worded message.  This theorem evaluates the
code at a valid absent name and shows the structure query was performed and
the message is the source's fallback wording, not the guard's sentence. -/
theorem claim_C8_no_existence_guard :
    describe_table_body "nonexistent" (.ok []) (.ok none) =
      ("Table 'nonexistent' not found or has no columns.",
       ["DESCRIBE `nonexistent`"]) := rfl

/-- Claim C5: for a row-returning statement with columns `c0 :: cols` and rows
`r0 :: rows` (at least one row) whose names and cells are newline-free, the
executor body renders exactly `M + 1` lines: the output is the newline-join of
a list of newline-free line strings whose head is the comma-joined column
names and whose remaining `M` elements are the comma-joined cells of each row,
in order. -/
theorem claim_C5_rows_rendering (query c0 : String) (cols : List String)
    (r0 : List String) (rows : List (List String)) (n : Int)
    (hcols : ∀ s ∈ c0 :: cols, noNL s = true)
    (hcells : ∀ r ∈ r0 :: rows, ∀ s ∈ r, noNL s = true) :
    ∃ L : List String,
      execute_sql_body query (.succeeds (some (c0 :: cols)) (r0 :: rows) n) =
        (pyJoin "\n" L, 0) ∧
      L.length = (r0 :: rows).length + 1 ∧
      L = pyJoin "," (c0 :: cols) :: (r0 :: rows).map (pyJoin ",") ∧
      ∀ s ∈ L, noNL s = true := by
  refine ⟨pyJoin "," (c0 :: cols) :: (r0 :: rows).map (pyJoin ","), rfl, ?_, rfl, ?_⟩
  · simp
  · intro s hs
    rcases List.mem_cons.mp hs with h | h
    · subst h
      exact noNL_pyJoin_comma hcols
    · obtain ⟨r, hr, hrs⟩ := List.mem_map.mp h
      subst hrs
      exact noNL_pyJoin_comma (hcells r hr)

/-- Claim C5 witness: the SHOW TABLES scenario, via `claim_C5_rows_rendering`,
together with the rendered text it produces. -/
theorem claim_C5_rows_rendering_witness :
    (∃ L : List String,
      execute_sql_body "SHOW TABLES"
          (.succeeds (some ["Tables_in_test_db"]) [["users"], ["products"]] 0) =
        (pyJoin "\n" L, 0) ∧
      L.length = ([["users"], ["products"]] : List (List String)).length + 1 ∧
      L = pyJoin "," ["Tables_in_test_db"] ::
            ([["users"], ["products"]] : List (List String)).map (pyJoin ",") ∧
      ∀ s ∈ L, noNL s = true) ∧
    execute_sql_body "SHOW TABLES"
        (.succeeds (some ["Tables_in_test_db"]) [["users"], ["products"]] 0) =
      ("Tables_in_test_db\nusers\nproducts", 0) :=
  ⟨claim_C5_rows_rendering "SHOW TABLES" "Tables_in_test_db" [] ["users"] [["products"]] 0
    (by decide) (by decide), rfl⟩

/-- Claim C9: for every table whose describe run succeeds (a nonempty column
list and a successful count), the report is the newline-join of: a header line
naming the table, the 50-character separator, a blank line, `Columns:`, one
line per column, a blank line, and the total-row-count line; and each column
line shows NULL or NOT NULL, the key kind in parentheses when non-empty,
`DEFAULT <value>` when a default is present, and the extra attribute when
non-empty. -/
theorem claim_C9_report_shape (table : String) (c0 : Column) (cols : List Column)
    (cnt : Option (List String)) :
    ∃ L : List String,
      (describe_table_body table (.ok (c0 :: cols)) (.ok cnt)).1 = pyJoin "\n" L ∧
      L = ("Table: " ++ table) :: sepLine :: "" :: "Columns:" ::
            ((c0 :: cols).map colLine ++
             ["", "Total rows: " ++ (match cnt with | some (c :: _) => c | _ => "0")]) ∧
      sepLine = String.mk (List.replicate 50 '=') ∧
      ∀ col ∈ c0 :: cols, colLine col =
        "  - " ++ col.field ++ ": " ++ col.type_ ++ " " ++
          ((if col.null == "YES" then "NULL" else "NOT NULL") ++
           (if col.key == "" then "" else " (" ++ col.key ++ ")") ++
           (match col.default with | none => "" | some d => " DEFAULT " ++ d) ++
           (if col.extra == "" then "" else " " ++ col.extra)) := by
  refine ⟨_, rfl, rfl, rfl, ?_⟩
  intro col _
  cases col with
  | mk field type_ null key dflt extra =>
    cases dflt <;> rfl

/-- Claim C10: when any of user, password, or database is unset (or empty),
each of the three handlers propagates the configuration `ValueError`
(`Except.error`) instead of returning a textual result, because
`get_db_config()` runs before the `try` block in every handler. -/
theorem claim_C10_config_error_raises (env : Env) (query : String) (db : ExecOutcome)
    (lst : ListOutcome) (table : String) (dsc : DescOutcome) (cnt : CntOutcome)
    (h : optTruthy env.mysql_user = false ∨ optTruthy env.mysql_password = false ∨
         optTruthy env.mysql_database = false) :
    (∃ e, execute_sql env query db = .error e) ∧
    (∃ e, list_tables env lst = .error e) ∧
    (∃ e, describe_table env table dsc cnt = .error e) := by
  obtain ⟨e, he⟩ := get_db_config_error_of_missing h
  exact ⟨⟨e, by rw [execute_sql, he]⟩, ⟨e, by rw [list_tables, he]⟩,
    ⟨e, by rw [describe_table, he]⟩⟩

/-- The environment with every variable unset. -/
def emptyEnv : Env :=
  { mysql_host := none, mysql_port := none, mysql_user := none,
    mysql_password := none, mysql_database := none, mysql_charset := none,
    mysql_collation := none, mysql_sql_mode := none, mysql_cert := none }

/-- Claim C10 witness: with every environment variable unset, all three
handlers raise, via `claim_C10_config_error_raises`. -/
theorem claim_C10_config_error_raises_witness :
    (∃ e, execute_sql emptyEnv "SELECT 1" (.raisesDb "x") = .error e) ∧
    (∃ e, list_tables emptyEnv (.raisesDb "x") = .error e) ∧
    (∃ e, describe_table emptyEnv "users" (.raisesDb "x") (.ok none) = .error e) :=
  claim_C10_config_error_raises emptyEnv "SELECT 1" (.raisesDb "x") (.raisesDb "x")
    "users" (.raisesDb "x") (.ok none) (by decide)

end MysqlMcp
